import Mathlib

/-!
Shallow embedding of the frappe-connector client SDK.

The embedding follows the TypeScript sources:
* `src/lib/utils/axios-config.ts` — header builder and client factories;
* the facade class `Frappe` (constructor and `login`);
* the document-operations client `FrappeDB` (`getDocList` parameter
  marshaling, `getCount`, `getLastDoc`, and the shared catch handler);
* the file-upload client `FrappeUpload` (form construction and its catch
  handler).

Network effects are modelled by passing the relevant HTTP response (or the
raised transport error) as an explicit argument, and by recording the
requests an operation issues as an explicit trace.  JavaScript string
truthiness, object spread and optional chaining are modelled explicitly
where the source relies on them.
-/

namespace FrappeConnector

/-- JavaScript truthiness of an optional string: `undefined` and the empty
string are falsy, every other string is truthy. -/
def truthy : Option String → Bool
  | none => false
  | some s => s != ""

/-- JavaScript truthiness of an optional boolean: `undefined` is falsy,
otherwise the boolean itself. -/
def truthyBool : Option Bool → Bool
  | none => false
  | some b => b

/-- JavaScript template-literal rendering of a possibly-undefined string:
`undefined` prints as the string "undefined". -/
def jsStr : Option String → String
  | none => "undefined"
  | some s => s

/-- The `startsWith` test on strings, written through the structurally
recursive list-prefix test so that concrete instances reduce inside the
kernel. -/
def strStartsWith (s pre : String) : Bool :=
  pre.data.isPrefixOf s.data

/-- Header maps are association lists.  Lookup takes the FIRST entry with a
matching key, so an entry placed earlier in the list overrides later ones;
the JavaScript object spread `\x7b ...base, ...override \x7d` is rendered by
putting the overriding entries first (`spreadOver`). -/
abbrev HeadersConfig := List (String × String)

/-- Lookup of a header by key (first match wins). -/
def getHeader (h : HeadersConfig) (k : String) : Option String :=
  (h.find? (fun p => p.1 == k)).map (fun p => p.2)

/-- Object spread `\x7b ...base, ...override \x7d`: the overriding entries
shadow the base entries. -/
def spreadOver (base override : HeadersConfig) : HeadersConfig :=
  override ++ base

/-- Property assignment `headers[k] = v`: the new binding shadows any old
one. -/
def setHeader (h : HeadersConfig) (k v : String) : HeadersConfig :=
  (k, v) :: h

/-- Ambient browser context read by `getCommonHeaders`.  `windowDefined`
models whether the global `window` object exists (`typeof window` is not
the string "undefined"); `csrfToken` models `window.csrf_token`, which may
be `undefined`. -/
structure BrowserEnv where
  windowDefined : Bool
  documentDefined : Bool
  locationOrigin : String
  locationHostname : String
  csrfToken : Option String

/-- Runtime errors a JavaScript evaluation can raise. -/
inductive JsError where
  | referenceError (name : String)
  | typeError (message : String)
  | error (message : String)
deriving DecidableEq

/-- Embedding of `getCommonHeaders` (axios-config.ts, lines 66-81).  The
defaults are overridden by the caller-supplied custom headers; the
site-name header is added under a guard that tests for a browser context;
the CSRF check reads `window.csrf_token` OUTSIDE that guard, so when the
`window` global is undefined the whole call raises a ReferenceError. -/
def getCommonHeaders (env : BrowserEnv) (baseURL : String)
    (customHeaders : HeadersConfig) : Except JsError HeadersConfig :=
  let headers : HeadersConfig :=
    spreadOver
      [("Accept", "application/json"),
       ("Content-Type", "application/json; charset=utf-8")]
      customHeaders
  let headers :=
    if env.windowDefined && env.documentDefined
        && (baseURL != "") && (baseURL == env.locationOrigin) then
      setHeader headers "X-Frappe-Site-Name" env.locationHostname
    else headers
  if env.windowDefined then
    if truthy env.csrfToken
        && (jsStr env.csrfToken != "\x7b\x7b csrf_token \x7d\x7d") then
      Except.ok (setHeader headers "X-Frappe-CSRF-Token" (jsStr env.csrfToken))
    else
      Except.ok headers
  else
    Except.error (JsError.referenceError "window")

/-- Configuration of an axios client as produced by `axios.create`:
base URL, headers, and the `withCredentials` flag (false unless set). -/
structure AxiosInstance where
  baseURL : String
  headers : HeadersConfig
  withCredentials : Bool
deriving DecidableEq

/-- Embedding of `getInstanceWithKeys` (axios-config.ts, lines 48-57):
the Authorization token header is spread BEFORE the common headers, so a
caller-supplied header with the same key overrides it. -/
def getInstanceWithKeys (env : BrowserEnv) (url : String)
    (apiKey secretKey : Option String) (customHeaders : HeadersConfig) :
    Except JsError AxiosInstance :=
  (getCommonHeaders env url customHeaders).map (fun common =>
    { baseURL := url
      headers :=
        spreadOver
          [("Authorization", "token " ++ jsStr apiKey ++ ":" ++ jsStr secretKey)]
          common
      withCredentials := true })

/-- The login HTTP response as far as `getInstanceWithCredentials`
inspects it: the status code and the optional `set-cookie` response
header (a list of cookie strings, possibly absent). -/
structure LoginHttpResponse where
  status : Nat
  setCookie : Option (List String)

/-- Embedding of `getInstanceWithCredentials` (axios-config.ts, lines
14-37).  The network POST itself is abstracted away: the function takes
the login response as an argument.  The common headers are computed for
the POST request first (and can raise), the response is then inspected:
on status 200 with a `sid=` cookie present a client is returned carrying
that cookie (unless a caller-supplied Cookie header shadows it, because
the common headers are spread after the Cookie entry); otherwise the
fixed failure message naming the URL is thrown. -/
def getInstanceWithCredentials (env : BrowserEnv) (url : String)
    (customHeaders : HeadersConfig) (res : LoginHttpResponse) :
    Except JsError AxiosInstance :=
  match getCommonHeaders env url customHeaders with
  | Except.error e => Except.error e
  | Except.ok common =>
    if res.status == 200 then
      match res.setCookie.bind
          (fun cookies => cookies.find? (fun c => strStartsWith c "sid=")) with
      | some sidCookie =>
          Except.ok
            { baseURL := url
              headers := spreadOver [("Cookie", sidCookie)] common
              withCredentials := false }
      | none => Except.error (JsError.error ("Failed to login to " ++ url))
    else
      Except.error (JsError.error ("Failed to login to " ++ url))

/-- Configuration record of the facade (`FrappeOptions`). -/
structure FrappeOptions where
  url : String
  username : Option String := none
  password : Option String := none
  apiKey : Option String := none
  secretKey : Option String := none
  headers : HeadersConfig := []

/-- State of the facade's `instance` field right after construction:
either the placeholder empty object, or a key-authenticated client. -/
inductive FrappeInstanceInit where
  | emptyObject
  | keyClient (client : AxiosInstance)
deriving DecidableEq

/-- Embedding of the `Frappe` constructor (frappe/index.ts, lines 43-54):
if both apiKey and secretKey are truthy, the client is built synchronously
via `getInstanceWithKeys`; otherwise the instance stays the placeholder
empty object. -/
def Frappe.constructInstance (env : BrowserEnv) (o : FrappeOptions) :
    Except JsError FrappeInstanceInit :=
  if truthy o.apiKey && truthy o.secretKey then
    (getInstanceWithKeys env o.url o.apiKey o.secretKey o.headers).map
      FrappeInstanceInit.keyClient
  else
    Except.ok FrappeInstanceInit.emptyObject

/-- Outcome of `Frappe.login` before any network traffic: either it
proceeds to a credential login POST, or it throws one of the two usage
errors. -/
inductive LoginOutcome where
  | credentialLogin (url username password : String)
  | usageErrorNoNeedToLogin
  | usageErrorNeedCredentials
deriving DecidableEq

/-- Embedding of `Frappe.login` (frappe/index.ts, lines 61-69): the
username/password branch is tested FIRST; only when that pair is not
(both) truthy does the apiKey/secretKey usage error fire; with neither
pair, the need-credentials usage error fires. -/
def Frappe.login (o : FrappeOptions) : LoginOutcome :=
  if truthy o.username && truthy o.password then
    LoginOutcome.credentialLogin o.url (jsStr o.username) (jsStr o.password)
  else if truthy o.apiKey && truthy o.secretKey then
    LoginOutcome.usageErrorNoNeedToLogin
  else
    LoginOutcome.usageErrorNeedCredentials

/-! ## JSON serialization used by parameter marshaling

`JSON.stringify` as the document client applies it to filter arrays and
field lists.  Only string quoting of the quote and backslash characters is
rendered (the control-character escapes of full JSON never arise in the
inputs the client passes). -/

/-- A primitive filter value: string, integer or boolean, as JavaScript
would serialize it. -/
inductive FilterValue where
  | str (s : String)
  | num (n : Int)
  | boolean (b : Bool)
deriving DecidableEq

/-- JSON escaping of one character inside a quoted string. -/
def jsonEscapeChar (c : Char) : String :=
  if c = '"' then "\\\""
  else if c = '\\' then "\\\\"
  else String.singleton c

/-- JSON quoting of a string. -/
def jsonQuote (s : String) : String :=
  "\"" ++ String.join (s.data.map jsonEscapeChar) ++ "\""

/-- Serialization of one filter value. -/
def FilterValue.json : FilterValue → String
  | FilterValue.str s => jsonQuote s
  | FilterValue.num n => toString n
  | FilterValue.boolean b => if b then "true" else "false"

/-- One filter expression: the tuple `[fieldname, operator, value]`. -/
structure Filter where
  field : String
  op : String
  value : FilterValue
deriving DecidableEq

/-- Serialization of one filter tuple. -/
def Filter.json (f : Filter) : String :=
  "[" ++ jsonQuote f.field ++ "," ++ jsonQuote f.op ++ "," ++ f.value.json ++ "]"

/-- `JSON.stringify` of a filter array. -/
def jsonStringifyFilters (fs : List Filter) : String :=
  "[" ++ String.intercalate "," (fs.map Filter.json) ++ "]"

/-- `JSON.stringify` of a string array (the `fields` projection list). -/
def jsonStringifyStrings (xs : List String) : String :=
  "[" ++ String.intercalate "," (xs.map jsonQuote) ++ "]"

/-! ## Document operations client (`FrappeDB`) -/

/-- Sort specification: a field name and an optional direction
("asc" or "desc"). -/
structure OrderBy where
  field : String
  order : Option String
deriving DecidableEq

/-- Arguments of `getDocList` (reconstructed from the destructuring in
db/index.ts, line 51: fields, filters, orFilters, orderBy, limit,
limit_start, groupBy, asDict).  `none` models an absent key. -/
structure GetDocListArgs where
  fields : Option (List String) := none
  filters : Option (List Filter) := none
  orFilters : Option (List Filter) := none
  orderBy : Option OrderBy := none
  limit : Option Nat := none
  limit_start : Option Nat := none
  groupBy : Option String := none
  asDict : Option Bool := none
deriving DecidableEq

/-- The request-parameter object `getDocList` sends.  `none` models a key
that is absent from the serialized request (JavaScript `undefined` values
are dropped by the transport). -/
structure DocListParams where
  fields : Option String := none
  filters : Option String := none
  or_filters : Option String := none
  order_by : Option String := none
  group_by : Option String := none
  limit : Option Nat := none
  limit_start : Option Nat := none
  as_dict : Option Bool := none
deriving DecidableEq

namespace FrappeDB

/-- Embedding of the parameter marshaling of `getDocList` (db/index.ts,
lines 47-63): with no `args` the params object is empty; otherwise
filters/orFilters/fields are JSON-stringified when given, `order_by` is
"<field> <order>" with the order defaulting to "asc" (and the empty
string when no orderBy is given), and `as_dict` defaults to true. -/
def getDocListParams (args : Option GetDocListArgs) : DocListParams :=
  match args with
  | none => {}
  | some a =>
    let orderByString :=
      match a.orderBy with
      | some ob => ob.field ++ " " ++ ob.order.getD "asc"
      | none => ""
    { fields := a.fields.map jsonStringifyStrings
      filters := a.filters.map jsonStringifyFilters
      or_filters := a.orFilters.map jsonStringifyFilters
      order_by := some orderByString
      group_by := a.groupBy
      limit := a.limit
      limit_start := a.limit_start
      as_dict := some (a.asDict.getD true) }

/-- Arguments of `getLastDoc`: the list-query arguments minus `limit` and
`fields`, which `getLastDoc` always forces to `1` and `["name"]` after the
merge (db/index.ts, line 358). -/
structure GetLastDocArgs where
  filters : Option (List Filter) := none
  orFilters : Option (List Filter) := none
  orderBy : Option OrderBy := none
  limit_start : Option Nat := none
  groupBy : Option String := none
  asDict : Option Bool := none
deriving DecidableEq

/-- Embedding of the merge `\x7b ...queryArgs, ...args \x7d` in
`getLastDoc` (db/index.ts, lines 345-356): the default is an orderBy of
`creation desc`; caller-supplied keys override it. -/
def GetLastDocArgs.mergedWithDefault (args : Option GetLastDocArgs) :
    GetLastDocArgs :=
  let dflt : GetLastDocArgs :=
    { orderBy := some { field := "creation", order := some "desc" } }
  match args with
  | none => dflt
  | some a =>
    { filters := a.filters
      orFilters := a.orFilters
      orderBy := a.orderBy <|> dflt.orderBy
      limit_start := a.limit_start
      groupBy := a.groupBy
      asDict := a.asDict }

/-- The list-call arguments `getLastDoc` passes to `getDocList`:
the merged arguments with `limit` forced to 1 and `fields` to `["name"]`
(db/index.ts, line 358). -/
def getLastDocListArgs (args : Option GetLastDocArgs) : GetDocListArgs :=
  let q := GetLastDocArgs.mergedWithDefault args
  { fields := some ["name"]
    filters := q.filters
    orFilters := q.orFilters
    orderBy := q.orderBy
    limit := some 1
    limit_start := q.limit_start
    groupBy := q.groupBy
    asDict := q.asDict }

/-- The serialized request parameters of the list call `getLastDoc`
issues. -/
def getLastDocRequestParams (args : Option GetLastDocArgs) : DocListParams :=
  getDocListParams (some (getLastDocListArgs args))

/-- One HTTP request issued by the document client, as recorded in an
operation trace. -/
inductive Request where
  | list (doctype : String) (params : DocListParams)
  | get (doctype : String) (docname : String)
deriving DecidableEq

/-- A full document record, as a field map. -/
abbrev FrappeDoc := List (String × String)

/-- The backend as the two calls of `getLastDoc` observe it: the names the
list call returns (already limited by the request parameters), and the
full record the get call returns for a name. -/
structure Backend where
  listNames : String → DocListParams → List String
  doc : String → String → FrappeDoc

/-- Result of `getLastDoc`: the empty object when no document matched, or
the full record fetched by `getDoc`. -/
inductive GetLastDocResult where
  | emptyObject
  | doc (d : FrappeDoc)
deriving DecidableEq

/-- Embedding of `getLastDoc` (db/index.ts, lines 344-364), returning the
trace of issued requests together with the result: one list call with
`limit: 1` and `fields: ['name']`; if it returns no name, the empty object
without any get call; otherwise a get call for the first returned name,
whose record is the result. -/
def getLastDoc (b : Backend) (doctype : String)
    (args : Option GetLastDocArgs) : List Request × GetLastDocResult :=
  let params := getLastDocRequestParams args
  match b.listNames doctype params with
  | [] => ([Request.list doctype params], GetLastDocResult.emptyObject)
  | n :: _ =>
      ([Request.list doctype params, Request.get doctype n],
       GetLastDocResult.doc (b.doc doctype n))

/-- The shape of the `filters` request parameter of `getCount`: the
literal empty array it is initialized with, or the JSON string it is
replaced by when the caller passed filters. -/
inductive CountFiltersParam where
  | emptyArray
  | jsonString (s : String)
deriving DecidableEq

/-- The request-parameter object `getCount` sends. -/
structure GetCountParams where
  cmd : String
  doctype : String
  filters : CountFiltersParam
  cache : Option Bool
  debug : Option Bool
deriving DecidableEq

/-- Embedding of the parameter construction of `getCount` (db/index.ts,
lines 300-321): `filters` starts as the empty array and is replaced by the
JSON string when filters were passed; `cache` and `debug` keys are only
assigned when the corresponding flag is truthy. -/
def getCountParams (doctype : String) (filters : Option (List Filter))
    (cache debug : Bool) : GetCountParams :=
  let base : GetCountParams :=
    { cmd := "frappe.client.get_count"
      doctype := doctype
      filters := CountFiltersParam.emptyArray
      cache := none
      debug := none }
  let base := if cache then { base with cache := some cache } else base
  let base := if debug then { base with debug := some debug } else base
  match filters with
  | some fs =>
      { base with filters := CountFiltersParam.jsonString (jsonStringifyFilters fs) }
  | none => base

/-- The response body of the count command, as far as `getCount` reads
it. -/
structure GetCountResponseBody where
  message : Int
deriving DecidableEq

/-- Embedding of the success continuation of `getCount` (db/index.ts,
line 325): the resolved value is the body's `message` field. -/
def getCountExtract (body : GetCountResponseBody) : Int :=
  body.message

end FrappeDB

/-! ## Error normalization (the shared catch handlers) -/

/-- The remote error body, as far as the catch handlers read it.  Every
field may be absent. -/
structure ErrorResponseBody where
  message : Option String := none
  exception : Option String := none
  exc_type : Option String := none
  exc : Option String := none
deriving DecidableEq

/-- The HTTP response attached to a failed request. -/
structure HttpErrorResponse where
  status : Nat
  statusText : String
  data : ErrorResponseBody
deriving DecidableEq

/-- The error object the transport rejects with: a transport-level
failure carries no response at all (`error.response` is undefined). -/
structure AxiosError where
  response : Option HttpErrorResponse
deriving DecidableEq

/-- The normalized error object the clients throw: the remote body fields
are spread in and then `httpStatus`, `httpStatusText`, `message` and
`exception` are (re)assigned. -/
structure NormalizedError where
  httpStatus : Nat
  httpStatusText : String
  message : String
  exception : String
  exc : Option String := none
  exc_type : Option String := none
deriving DecidableEq

/-- What a catch handler itself ends up throwing: the normalized error
object, or a JavaScript runtime error raised while building it. -/
inductive Thrown where
  | normalized (e : NormalizedError)
  | jsError (e : JsError)
deriving DecidableEq

/-- Whether a thrown value is the normalized error shape. -/
def Thrown.isNormalized : Thrown → Bool
  | Thrown.normalized _ => true
  | Thrown.jsError _ => false

/-- The `exception` field of a thrown value, when it is the normalized
shape. -/
def Thrown.exceptionField : Thrown → Option String
  | Thrown.normalized e => some e.exception
  | Thrown.jsError _ => none

/-- Embedding of the catch handler shared by the `FrappeDB` operations
(for example db/index.ts, lines 28-36 for `getDoc`).  When the error
carries no response, the access `error.response.data` itself raises a
TypeError.  Otherwise the body is spread into the normalized object;
`message` is either the fixed message or (for the operations written as
`data.message ?? fixed`) the remote message with the fixed one as
fallback, selected here by `useRemoteMessage`; `exception` is the remote
`exception` field, else `exc_type`, else the empty string. -/
def dbCatchHandler (useRemoteMessage : Bool) (fixedMessage : String)
    (err : AxiosError) : Thrown :=
  match err.response with
  | none =>
      Thrown.jsError
        (JsError.typeError "Cannot read properties of undefined (reading data)")
  | some r =>
      Thrown.normalized
        { httpStatus := r.status
          httpStatusText := r.statusText
          message :=
            if useRemoteMessage then r.data.message.getD fixedMessage
            else fixedMessage
          exception := r.data.exception.getD (r.data.exc_type.getD "")
          exc := r.data.exc
          exc_type := r.data.exc_type }

/-- Embedding of the catch handler of `FrappeUpload.upload`
(file/index.ts, lines 178-186): the same shape, but `exception` falls
back directly to the empty string with no `exc_type` step. -/
def uploadCatchHandler (err : AxiosError) : Thrown :=
  match err.response with
  | none =>
      Thrown.jsError
        (JsError.typeError "Cannot read properties of undefined (reading data)")
  | some r =>
      Thrown.normalized
        { httpStatus := r.status
          httpStatusText := r.statusText
          message :=
            r.data.message.getD "There was an error while uploading the file."
          exception := r.data.exception.getD ""
          exc := r.data.exc
          exc_type := r.data.exc_type }

/-! ## File upload client (`FrappeUpload`) -/

/-- Arguments of `upload` (reconstructed from the destructuring in
file/index.ts, line 141: isPrivate, folder, file_url, doctype, docname,
fieldname, otherData).  `otherData` is an arbitrary key/value record. -/
structure FileArgs where
  isPrivate : Option Bool := none
  folder : Option String := none
  file_url : Option String := none
  doctype : Option String := none
  docname : Option String := none
  fieldname : Option String := none
  otherData : Option (List (String × String)) := none
deriving DecidableEq

/-- Embedding of the multipart form construction of `upload`
(file/index.ts, lines 138-165), in append order.  The `file` parameter is
required and a File object is always truthy, so its entry is
unconditional; `is_private`, `folder` and `file_url` are appended only
when the corresponding argument is truthy; `doctype` and `docname` only
when BOTH are truthy, with `fieldname` nested inside that guard; every
`otherData` pair is appended verbatim at the end. -/
def uploadFormData (fileName : String) (args : FileArgs) :
    List (String × String) :=
  [("file", fileName)]
  ++ (if truthyBool args.isPrivate then [("is_private", "1")] else [])
  ++ (if truthy args.folder then [("folder", jsStr args.folder)] else [])
  ++ (if truthy args.file_url then [("file_url", jsStr args.file_url)] else [])
  ++ (if truthy args.doctype && truthy args.docname then
        [("doctype", jsStr args.doctype), ("docname", jsStr args.docname)]
        ++ (if truthy args.fieldname then [("fieldname", jsStr args.fieldname)] else [])
      else [])
  ++ (match args.otherData with
      | some kvs => kvs
      | none => [])

/-- The keys present in a multipart form. -/
def formKeys (form : List (String × String)) : List String :=
  form.map (fun p => p.1)

/-! ## Helper lemmas on header lookup -/

/-- Lookup in a concatenation of header lists: the left list is consulted
first. -/
theorem getHeader_append (l1 l2 : HeadersConfig) (k : String) :
    getHeader (l1 ++ l2) k = ((getHeader l1 k).orElse (fun _ => getHeader l2 k)) := by
  simp [getHeader, List.find?_append]
  cases h : l1.find? (fun p => p.1 == k) <;> simp [Option.orElse]

/-- Assigning one header leaves the lookup of every other key unchanged. -/
theorem getHeader_setHeader_ne (h : HeadersConfig) (k k2 v : String)
    (hne : k2 ≠ k) :
    getHeader (setHeader h k2 v) k = getHeader h k := by
  simp [getHeader, setHeader, List.find?_cons_of_neg, hne]

/-- In a browser context (the `window` global defined), `getCommonHeaders`
returns headers whose lookup agrees, away from the two environment-derived
keys, with the custom headers spread over the two defaults. -/
theorem getCommonHeaders_windowDefined (env : BrowserEnv) (baseURL : String)
    (custom : HeadersConfig) (hw : env.windowDefined = true) :
    ∃ h, getCommonHeaders env baseURL custom = Except.ok h ∧
      ∀ k, k ≠ "X-Frappe-Site-Name" → k ≠ "X-Frappe-CSRF-Token" →
        getHeader h k =
          getHeader
            (spreadOver
              [("Accept", "application/json"),
               ("Content-Type", "application/json; charset=utf-8")]
              custom) k := by
  simp only [getCommonHeaders, hw, if_true, Bool.true_and]
  by_cases hsite :
      (env.documentDefined && (baseURL != "") && (baseURL == env.locationOrigin)) = true
  · rw [if_pos hsite]
    by_cases hcsrf :
        (truthy env.csrfToken && (jsStr env.csrfToken != "\x7b\x7b csrf_token \x7d\x7d")) = true
    · rw [if_pos hcsrf]
      refine ⟨_, rfl, fun k h1 h2 => ?_⟩
      rw [getHeader_setHeader_ne _ _ _ _ (Ne.symm h2)]
      rw [getHeader_setHeader_ne _ _ _ _ (Ne.symm h1)]
    · rw [if_neg hcsrf]
      refine ⟨_, rfl, fun k h1 h2 => ?_⟩
      rw [getHeader_setHeader_ne _ _ _ _ (Ne.symm h1)]
  · rw [if_neg hsite]
    by_cases hcsrf :
        (truthy env.csrfToken && (jsStr env.csrfToken != "\x7b\x7b csrf_token \x7d\x7d")) = true
    · rw [if_pos hcsrf]
      refine ⟨_, rfl, fun k h1 h2 => ?_⟩
      rw [getHeader_setHeader_ne _ _ _ _ (Ne.symm h2)]
    · rw [if_neg hcsrf]
      exact ⟨_, rfl, fun k _ _ => rfl⟩

/-! ## Claim theorems -/

/-- C1, counterexample: with all four credential fields set, `login()`
proceeds with a credential login and does NOT throw the
"don't need to login" usage error, refuting the claim that the usage
error fires regardless of username/password presence. -/
theorem C1_login_with_both_pairs_counterexample :
    Frappe.login { url := "https://example.com", username := some "alice",
                   password := some "pw", apiKey := some "key",
                   secretKey := some "secret" } =
      LoginOutcome.credentialLogin "https://example.com" "alice" "pw" ∧
    LoginOutcome.credentialLogin "https://example.com" "alice" "pw" ≠
      LoginOutcome.usageErrorNoNeedToLogin :=
  ⟨rfl, by decide⟩

/-- C1 (amended): `login()` throws the "don't need to login" usage error
when apiKey and secretKey are both set AND username and password are not
both set; the username/password branch is tested first, so when both
pairs are present a credential login is performed instead. -/
theorem C1_login_keys_usage_error (o : FrappeOptions)
    (hk : truthy o.apiKey = true) (hs : truthy o.secretKey = true)
    (hup : (truthy o.username && truthy o.password) = false) :
    Frappe.login o = LoginOutcome.usageErrorNoNeedToLogin := by
  simp [Frappe.login, hup, hk, hs]

/-- C1, witness: a configuration with only apiKey/secretKey set indeed
gets the usage error. -/
theorem C1_login_keys_usage_error_witness :
    Frappe.login { url := "https://example.com", apiKey := some "key",
                   secretKey := some "secret" } =
      LoginOutcome.usageErrorNoNeedToLogin :=
  C1_login_keys_usage_error
    { url := "https://example.com", apiKey := some "key",
      secretKey := some "secret" }
    (by decide) (by decide) (by decide)

/-- C2: `getLastDoc` issues one list call whose parameters carry
`limit = 1`, `fields = ["name"]` serialized, and `order_by` equal to
"creation desc" unless the caller overrides the order; when the list
call returns no name the result is the empty object and no get call is
issued; when it returns a name, a get call for that name follows and the
full record is returned. -/
theorem C2_getLastDoc_spec (b : FrappeDB.Backend) (doctype : String)
    (args : Option FrappeDB.GetLastDocArgs) :
    ((FrappeDB.getLastDocRequestParams args).limit = some 1) ∧
    ((FrappeDB.getLastDocRequestParams args).fields = some "[\"name\"]") ∧
    (args = none →
       (FrappeDB.getLastDocRequestParams args).order_by = some "creation desc") ∧
    (∀ a, args = some a → a.orderBy = none →
       (FrappeDB.getLastDocRequestParams args).order_by = some "creation desc") ∧
    (∀ a ob, args = some a → a.orderBy = some ob →
       (FrappeDB.getLastDocRequestParams args).order_by =
         some (ob.field ++ " " ++ ob.order.getD "asc")) ∧
    (b.listNames doctype (FrappeDB.getLastDocRequestParams args) = [] →
       FrappeDB.getLastDoc b doctype args =
         ([FrappeDB.Request.list doctype (FrappeDB.getLastDocRequestParams args)],
          FrappeDB.GetLastDocResult.emptyObject)) ∧
    (∀ n rest,
       b.listNames doctype (FrappeDB.getLastDocRequestParams args) = n :: rest →
       FrappeDB.getLastDoc b doctype args =
         ([FrappeDB.Request.list doctype (FrappeDB.getLastDocRequestParams args),
           FrappeDB.Request.get doctype n],
          FrappeDB.GetLastDocResult.doc (b.doc doctype n))) := by
  refine ⟨?_, ?_, ?_, ?_, ?_, ?_, ?_⟩
  · cases args <;> rfl
  · cases args <;> rfl
  · intro ha; subst ha; rfl
  · intro a ha hob
    subst ha
    simp [FrappeDB.getLastDocRequestParams, FrappeDB.getLastDocListArgs,
          FrappeDB.GetLastDocArgs.mergedWithDefault, FrappeDB.getDocListParams, hob]
  · intro a ob ha hob
    subst ha
    simp [FrappeDB.getLastDocRequestParams, FrappeDB.getLastDocListArgs,
          FrappeDB.GetLastDocArgs.mergedWithDefault, FrappeDB.getDocListParams, hob]
  · intro hnil
    simp [FrappeDB.getLastDoc, hnil]
  · intro n rest hcons
    simp [FrappeDB.getLastDoc, hcons]

/-- C2, witness: against a backend holding one matching document, the
trace is the list call followed by the get call for the returned name,
and the result is the full record. -/
theorem C2_getLastDoc_spec_witness :
    FrappeDB.getLastDoc
        { listNames := fun _ _ => ["DOC-0001"], doc := fun _ n => [("name", n)] }
        "Task" none =
      ([FrappeDB.Request.list "Task" (FrappeDB.getLastDocRequestParams none),
        FrappeDB.Request.get "Task" "DOC-0001"],
       FrappeDB.GetLastDocResult.doc [("name", "DOC-0001")]) :=
  (C2_getLastDoc_spec
    { listNames := fun _ _ => ["DOC-0001"], doc := fun _ n => [("name", n)] }
    "Task" none).2.2.2.2.2.2 "DOC-0001" [] rfl

/-- C3: for every failed call carrying a response, the normalized error
has `httpStatus` equal to the response status; the document/RPC handler
sets `exception` to the remote `exception` field, else `exc_type`, else
the empty string, while the upload handler omits the `exc_type` fallback;
the two concrete conjuncts exhibit the difference on a body with only
`exc_type` set. -/
theorem C3_error_normalization_spec (u : Bool) (m : String)
    (r : HttpErrorResponse) :
    (∃ e, dbCatchHandler u m { response := some r } = Thrown.normalized e ∧
       e.httpStatus = r.status ∧
       e.exception =
         (match r.data.exception, r.data.exc_type with
          | some ex, _ => ex
          | none, some t => t
          | none, none => "")) ∧
    (∃ e, uploadCatchHandler { response := some r } = Thrown.normalized e ∧
       e.httpStatus = r.status ∧
       e.exception =
         (match r.data.exception with
          | some ex => ex
          | none => "")) ∧
    Thrown.exceptionField
        (dbCatchHandler false "There was an error while fetching the document."
          { response := some { status := 417, statusText := "EXPECTATION FAILED",
                               data := { exception := none,
                                         exc_type := some "ValidationError" } } }) =
      some "ValidationError" ∧
    Thrown.exceptionField
        (uploadCatchHandler
          { response := some { status := 417, statusText := "EXPECTATION FAILED",
                               data := { exception := none,
                                         exc_type := some "ValidationError" } } }) =
      some "" := by
  refine ⟨⟨_, rfl, rfl, ?_⟩, ⟨_, rfl, rfl, ?_⟩, rfl, rfl⟩
  · cases hx : r.data.exception <;> cases ht : r.data.exc_type <;> simp [hx, ht]
  · cases hx : r.data.exception <;> simp [hx]

/-- C3, witness: a concrete failed call with a remote `exception` field
surfaces that field. -/
theorem C3_error_normalization_spec_witness :
    Thrown.exceptionField
        (dbCatchHandler false "m"
          { response := some { status := 500, statusText := "ERR",
                               data := { exception := some "PermissionError" } } }) =
      some "PermissionError" := by
  obtain ⟨e, he, _, hex⟩ :=
    (C3_error_normalization_spec false "m"
      { status := 500, statusText := "ERR",
        data := { exception := some "PermissionError" } }).1
  rw [he]
  show some e.exception = some "PermissionError"
  exact congrArg some (hex.trans rfl)

/-- C4, counterexample: with status 200 and a `sid=` cookie present, a
caller-supplied Cookie header is spread after the session cookie and
overrides it, so the returned client's Cookie header is NOT the sid
cookie, refuting the claim for that configuration. -/
theorem C4_credential_cookie_counterexample :
    ((getInstanceWithCredentials
        ⟨true, true, "https://frappe.example", "frappe.example", none⟩
        "https://frappe.example" [("Cookie", "custom=1")]
        { status := 200, setCookie := some ["sid=abc"] }).map
      (fun i => getHeader i.headers "Cookie")).toOption =
      some (some "custom=1") ∧
    (some (some "custom=1") : Option (Option String)) ≠ some (some "sid=abc") :=
  ⟨rfl, by decide⟩

/-- C4 (amended): in a browser context, and when the caller-supplied
custom headers do not themselves set a Cookie header, a credential login
with HTTP status 200 and a response cookie starting with "sid=" returns
a client carrying that cookie as its Cookie header; otherwise (status not
200, or no such cookie) it throws the error whose message is exactly
"Failed to login to <url>". -/
theorem C4_credential_login_spec (env : BrowserEnv) (url : String)
    (custom : HeadersConfig) (res : LoginHttpResponse)
    (hw : env.windowDefined = true)
    (hcookie : getHeader custom "Cookie" = none) :
    (∀ c, res.status = 200 →
       res.setCookie.bind
           (fun cookies => cookies.find? (fun s => strStartsWith s "sid=")) =
         some c →
       ∃ inst, getInstanceWithCredentials env url custom res = Except.ok inst ∧
         inst.baseURL = url ∧ getHeader inst.headers "Cookie" = some c) ∧
    ((res.status ≠ 200 ∨
       res.setCookie.bind
           (fun cookies => cookies.find? (fun s => strStartsWith s "sid=")) =
         none) →
       getInstanceWithCredentials env url custom res =
         Except.error (JsError.error ("Failed to login to " ++ url))) := by
  obtain ⟨h, hok, hlook⟩ := getCommonHeaders_windowDefined env url custom hw
  have hC : getHeader h "Cookie" = none := by
    rw [hlook "Cookie" (by decide) (by decide)]
    show getHeader (custom ++ _) "Cookie" = none
    rw [getHeader_append, hcookie]
    rfl
  constructor
  · intro c h200 hc
    refine ⟨{ baseURL := url, headers := spreadOver [("Cookie", c)] h,
              withCredentials := false }, ?_, rfl, ?_⟩
    · simp [getInstanceWithCredentials, hok, h200, hc]
    · show getHeader (h ++ [("Cookie", c)]) "Cookie" = some c
      rw [getHeader_append, hC]
      rfl
  · intro hfail
    rcases hfail with hne | hnone
    · simp [getInstanceWithCredentials, hok, hne]
    · simp [getInstanceWithCredentials, hok, hnone]

/-- C4, witness: a 403 response yields exactly the fixed failure
message naming the URL. -/
theorem C4_credential_login_spec_witness :
    getInstanceWithCredentials
        ⟨true, true, "https://frappe.example", "frappe.example", none⟩
        "https://frappe.example" [] { status := 403, setCookie := none } =
      Except.error (JsError.error "Failed to login to https://frappe.example") :=
  (C4_credential_login_spec
      ⟨true, true, "https://frappe.example", "frappe.example", none⟩
      "https://frappe.example" [] { status := 403, setCookie := none }
      rfl rfl).2 (Or.inl (by decide))

/-- C5: `getDocList` with args serializes filters/orFilters as JSON
strings and fields as a JSON array string (each absent when not given),
builds `order_by` as "<field> <order>" with the order defaulting to
"asc", passes group_by/limit/limit_start through, and defaults `as_dict`
to true; in particular the claim's concrete example produces exactly the
stated parameters. -/
theorem C5_getDocList_params_spec (a : GetDocListArgs) :
    (FrappeDB.getDocListParams (some a)).filters =
      a.filters.map jsonStringifyFilters ∧
    (FrappeDB.getDocListParams (some a)).or_filters =
      a.orFilters.map jsonStringifyFilters ∧
    (FrappeDB.getDocListParams (some a)).fields =
      a.fields.map jsonStringifyStrings ∧
    (∀ ob, a.orderBy = some ob →
       (FrappeDB.getDocListParams (some a)).order_by =
         some (ob.field ++ " " ++ ob.order.getD "asc")) ∧
    (a.orderBy = none →
       (FrappeDB.getDocListParams (some a)).order_by = some "") ∧
    (FrappeDB.getDocListParams (some a)).group_by = a.groupBy ∧
    (FrappeDB.getDocListParams (some a)).limit = a.limit ∧
    (FrappeDB.getDocListParams (some a)).limit_start = a.limit_start ∧
    (FrappeDB.getDocListParams (some a)).as_dict = some (a.asDict.getD true) ∧
    FrappeDB.getDocListParams
        (some { filters := some [⟨"creation", ">", FilterValue.str "2021-10-09"⟩],
                limit := some 10,
                orderBy := some ⟨"creation", some "desc"⟩ }) =
      { fields := none,
        filters := some "[[\"creation\",\">\",\"2021-10-09\"]]",
        or_filters := none,
        order_by := some "creation desc",
        group_by := none,
        limit := some 10,
        limit_start := none,
        as_dict := some true } := by
  refine ⟨rfl, rfl, rfl, ?_, ?_, rfl, rfl, rfl, rfl, rfl⟩
  · intro ob hob
    simp [FrappeDB.getDocListParams, hob]
  · intro hob
    simp [FrappeDB.getDocListParams, hob]

/-- C5, witness: the claim's concrete example yields
`order_by = "creation desc"`. -/
theorem C5_getDocList_params_spec_witness :
    (FrappeDB.getDocListParams
        (some { filters := some [⟨"creation", ">", FilterValue.str "2021-10-09"⟩],
                limit := some 10,
                orderBy := some ⟨"creation", some "desc"⟩ })).order_by =
      some "creation desc" :=
  (C5_getDocList_params_spec
    { filters := some [⟨"creation", ">", FilterValue.str "2021-10-09"⟩],
      limit := some 10,
      orderBy := some ⟨"creation", some "desc"⟩ }).2.2.2.1
    ⟨"creation", some "desc"⟩ rfl

/-- C6, counterexample: with apiKey and secretKey set but a caller
custom header also supplying Authorization, the custom header is spread
after the token header and overrides it, so the constructed client's
Authorization is NOT `token k:s`, refuting the claim for that
configuration. -/
theorem C6_keys_auth_counterexample :
    ((Frappe.constructInstance
        ⟨true, true, "https://frappe.example", "frappe.example", none⟩
        { url := "https://frappe.example", apiKey := some "k",
          secretKey := some "s",
          headers := [("Authorization", "Bearer custom")] }).map
      (fun i =>
        match i with
        | FrappeInstanceInit.keyClient c => getHeader c.headers "Authorization"
        | FrappeInstanceInit.emptyObject => none)).toOption =
      some (some "Bearer custom") ∧
    (some (some "Bearer custom") : Option (Option String)) ≠
      some (some "token k:s") :=
  ⟨rfl, by decide⟩

/-- C6 (amended): in a browser context, for every configuration with
apiKey and secretKey both set whose custom headers do not themselves set
an Authorization header, constructing the facade synchronously yields a
key client whose Authorization header is `token <apiKey>:<secretKey>`
and whose withCredentials flag is enabled. -/
theorem C6_construct_with_keys_spec (env : BrowserEnv) (o : FrappeOptions)
    (hw : env.windowDefined = true)
    (hk : truthy o.apiKey = true) (hs : truthy o.secretKey = true)
    (hauth : getHeader o.headers "Authorization" = none) :
    ∃ inst, Frappe.constructInstance env o =
        Except.ok (FrappeInstanceInit.keyClient inst) ∧
      inst.baseURL = o.url ∧
      getHeader inst.headers "Authorization" =
        some ("token " ++ jsStr o.apiKey ++ ":" ++ jsStr o.secretKey) ∧
      inst.withCredentials = true := by
  obtain ⟨h, hok, hlook⟩ := getCommonHeaders_windowDefined env o.url o.headers hw
  have hA : getHeader h "Authorization" = none := by
    rw [hlook "Authorization" (by decide) (by decide)]
    show getHeader (o.headers ++ _) "Authorization" = none
    rw [getHeader_append, hauth]
    rfl
  refine ⟨{ baseURL := o.url,
            headers :=
              spreadOver
                [("Authorization",
                  "token " ++ jsStr o.apiKey ++ ":" ++ jsStr o.secretKey)] h,
            withCredentials := true }, ?_, rfl, ?_, rfl⟩
  · simp [Frappe.constructInstance, hk, hs, getInstanceWithKeys, hok, Except.map]
  · show getHeader (h ++ _) "Authorization" = _
    rw [getHeader_append, hA]
    rfl

/-- C6, witness: a concrete key-based configuration yields the token
Authorization header and the enabled credentials flag. -/
theorem C6_construct_with_keys_spec_witness :
    ∃ inst,
      Frappe.constructInstance
          ⟨true, true, "https://frappe.example", "frappe.example", none⟩
          { url := "https://frappe.example", apiKey := some "k",
            secretKey := some "s" } =
        Except.ok (FrappeInstanceInit.keyClient inst) ∧
      inst.baseURL = "https://frappe.example" ∧
      getHeader inst.headers "Authorization" = some "token k:s" ∧
      inst.withCredentials = true :=
  C6_construct_with_keys_spec
    ⟨true, true, "https://frappe.example", "frappe.example", none⟩
    { url := "https://frappe.example", apiKey := some "k", secretKey := some "s" }
    rfl rfl rfl rfl

/-- C7: the upload form always lists the file first under key `file`;
`is_private` (as "1"), `folder` and `file_url` are attached when the
corresponding argument is truthy and (absent caller-supplied extra data)
only then; `doctype`/`docname` are attached only when both are truthy,
with `fieldname` nested in that guard; every `otherData` pair is appended
verbatim; in particular, doctype set without docname attaches nothing
beyond the file. -/
theorem C7_upload_form_spec (fileName : String) (args : FileArgs) :
    (uploadFormData fileName args).head? = some ("file", fileName) ∧
    (truthyBool args.isPrivate = true →
       ("is_private", "1") ∈ uploadFormData fileName args) ∧
    (truthy args.folder = true →
       ("folder", jsStr args.folder) ∈ uploadFormData fileName args) ∧
    (truthy args.file_url = true →
       ("file_url", jsStr args.file_url) ∈ uploadFormData fileName args) ∧
    (truthy args.doctype = true → truthy args.docname = true →
       ("doctype", jsStr args.doctype) ∈ uploadFormData fileName args ∧
       ("docname", jsStr args.docname) ∈ uploadFormData fileName args) ∧
    (truthy args.doctype = true → truthy args.docname = true →
       truthy args.fieldname = true →
       ("fieldname", jsStr args.fieldname) ∈ uploadFormData fileName args) ∧
    (args.otherData = none → truthyBool args.isPrivate = false →
       "is_private" ∉ formKeys (uploadFormData fileName args)) ∧
    (args.otherData = none → truthy args.folder = false →
       "folder" ∉ formKeys (uploadFormData fileName args)) ∧
    (args.otherData = none → truthy args.file_url = false →
       "file_url" ∉ formKeys (uploadFormData fileName args)) ∧
    (args.otherData = none →
       ¬(truthy args.doctype = true ∧ truthy args.docname = true) →
       "doctype" ∉ formKeys (uploadFormData fileName args) ∧
       "docname" ∉ formKeys (uploadFormData fileName args) ∧
       "fieldname" ∉ formKeys (uploadFormData fileName args)) ∧
    (∀ kvs kv, args.otherData = some kvs → kv ∈ kvs →
       kv ∈ uploadFormData fileName args) ∧
    uploadFormData "avatar.png" { doctype := some "User" } =
      [("file", "avatar.png")] := by
  refine ⟨rfl, ?_, ?_, ?_, ?_, ?_, ?_, ?_, ?_, ?_, ?_, rfl⟩
  · intro h
    simp [uploadFormData, h]
  · intro h
    simp [uploadFormData, h]
  · intro h
    simp [uploadFormData, h]
  · intro h1 h2
    constructor <;> simp [uploadFormData, h1, h2]
  · intro h1 h2 h3
    simp [uploadFormData, h1, h2, h3]
  · intro hod hip
    simp [uploadFormData, formKeys, hod, hip]
  · intro hod hf
    simp [uploadFormData, formKeys, hod, hf]
  · intro hod hf
    simp [uploadFormData, formKeys, hod, hf]
  · intro hod hdd
    have hb : (truthy args.doctype && truthy args.docname) = false := by
      cases h1 : truthy args.doctype <;> cases h2 : truthy args.docname <;>
        simp_all
    refine ⟨?_, ?_, ?_⟩ <;> simp [uploadFormData, formKeys, hod, hb]
  · intro kvs kv hod hkv
    simp [uploadFormData, hod]
    tauto

/-- C7, witness: a truthy isPrivate argument puts `("is_private", "1")`
into the form. -/
theorem C7_upload_form_spec_witness :
    ("is_private", "1") ∈ uploadFormData "a.txt" { isPrivate := some true } :=
  (C7_upload_form_spec "a.txt" { isPrivate := some true }).2.1 rfl

/-- C8: the `getCount` request parameters always carry a `filters` key —
the literal empty array when the caller passed none, the JSON string of
the caller's filters otherwise; `cache` and `debug` are included only
when the corresponding flag is true; and the returned value is the
response body's `message` field. -/
theorem C8_getCount_params_spec (doctype : String)
    (filters : Option (List Filter)) (cache debug : Bool) :
    (filters = none →
       (FrappeDB.getCountParams doctype filters cache debug).filters =
         FrappeDB.CountFiltersParam.emptyArray) ∧
    (∀ fs, filters = some fs →
       (FrappeDB.getCountParams doctype filters cache debug).filters =
         FrappeDB.CountFiltersParam.jsonString (jsonStringifyFilters fs)) ∧
    ((FrappeDB.getCountParams doctype filters cache debug).cache =
       if cache then some true else none) ∧
    ((FrappeDB.getCountParams doctype filters cache debug).debug =
       if debug then some true else none) ∧
    (FrappeDB.getCountParams doctype filters cache debug).cmd =
      "frappe.client.get_count" ∧
    (FrappeDB.getCountParams doctype filters cache debug).doctype = doctype ∧
    (∀ body : FrappeDB.GetCountResponseBody,
       FrappeDB.getCountExtract body = body.message) := by
  refine ⟨?_, ?_, ?_, ?_, ?_, ?_, fun _ => rfl⟩ <;>
    first
      | (intro h
         subst h
         cases cache <;> cases debug <;> rfl)
      | (intro fs h
         subst h
         cases cache <;> cases debug <;> rfl)
      | (cases filters <;> cases cache <;> cases debug <;> rfl)

/-- C8, witness: with no filters and the cache flag on, the params hold
the empty-array filters value. -/
theorem C8_getCount_params_spec_witness :
    (FrappeDB.getCountParams "User" none true false).filters =
      FrappeDB.CountFiltersParam.emptyArray :=
  (C8_getCount_params_spec "User" none true false).1 rfl

/-- C9, counterexample: a transport-level failure with no response
attached does NOT surface as the normalized error shape from either
catch handler, refuting the claim that response-less and
response-carrying failures surface identically normalized. -/
theorem C9_no_response_counterexample :
    (dbCatchHandler false "There was an error while fetching the documents."
        { response := none }).isNormalized = false ∧
    (uploadCatchHandler { response := none }).isNormalized = false :=
  ⟨rfl, rfl⟩

/-- C9 (amended): a failure surfaces as the normalized error shape
exactly when it carries a remote HTTP response; a response-less
transport failure instead raises, from both handlers identically, a
TypeError produced by reading `data` of the undefined response. -/
theorem C9_failure_surface_spec (u : Bool) (m : String) (err : AxiosError) :
    ((dbCatchHandler u m err).isNormalized = err.response.isSome) ∧
    ((uploadCatchHandler err).isNormalized = err.response.isSome) ∧
    (err.response = none →
       dbCatchHandler u m err =
         Thrown.jsError
           (JsError.typeError
             "Cannot read properties of undefined (reading data)") ∧
       uploadCatchHandler err =
         Thrown.jsError
           (JsError.typeError
             "Cannot read properties of undefined (reading data)")) := by
  obtain ⟨resp⟩ := err
  cases resp <;>
    simp [dbCatchHandler, uploadCatchHandler, Thrown.isNormalized]

/-- C9, witness: the document handler applied to a response-less error
raises the TypeError. -/
theorem C9_failure_surface_spec_witness :
    dbCatchHandler false "m" { response := none } =
      Thrown.jsError
        (JsError.typeError "Cannot read properties of undefined (reading data)") :=
  ((C9_failure_surface_spec false "m" { response := none }).2.2 rfl).1

/-- C10: when the `window` global is undefined, `getCommonHeaders`
raises a ReferenceError (the CSRF-token check reads `window.csrf_token`
outside the browser-context guard) instead of returning headers, and
consequently both client constructions — key-based and login-based —
fail with that ReferenceError. -/
theorem C10_nonbrowser_reference_error (env : BrowserEnv) (baseURL : String)
    (custom : HeadersConfig) (hw : env.windowDefined = false) :
    getCommonHeaders env baseURL custom =
      Except.error (JsError.referenceError "window") ∧
    (∀ apiKey secretKey,
       getInstanceWithKeys env baseURL apiKey secretKey custom =
         Except.error (JsError.referenceError "window")) ∧
    (∀ res, getInstanceWithCredentials env baseURL custom res =
       Except.error (JsError.referenceError "window")) := by
  have h1 : getCommonHeaders env baseURL custom =
      Except.error (JsError.referenceError "window") := by
    simp [getCommonHeaders, hw]
  refine ⟨h1, fun apiKey secretKey => ?_, fun res => ?_⟩
  · simp [getInstanceWithKeys, h1, Except.map]
  · simp [getInstanceWithCredentials, h1]

/-- C10, witness: in a concrete non-browser environment the header
builder raises the ReferenceError. -/
theorem C10_nonbrowser_reference_error_witness :
    getCommonHeaders ⟨false, false, "", "", none⟩ "https://frappe.example" [] =
      Except.error (JsError.referenceError "window") :=
  (C10_nonbrowser_reference_error ⟨false, false, "", "", none⟩
    "https://frappe.example" [] rfl).1

end FrappeConnector
